import Mathlib

set_option maxRecDepth 100000
set_option maxHeartbeats 1000000

/-!
Verification of the bidbuy trend-analyzer pipeline (`bidbuy_analyzer.py`).

The Python source is embedded shallowly:

* a pandas `DataFrame` becomes a `Table`: an ordered list of column names
  plus rows of `Cell`s (a cell is a piece of text or a rational number;
  floating-point artifacts and pandas `NaN` handling are outside the model,
  and keyword/category columns are assumed textual);
* `Series.sort_values(ascending := False)` is modelled as the reverse of a
  stable ascending insertion sort, matching pandas `nargsort`, which argsorts
  ascending (numpy insertion sort is stable below its 16-element threshold,
  covering every concrete example here) and then reverses the indexer;
* `groupby(key)[val].sum()` sorts the distinct keys ascending (pandas
  `sort := True` default) and sums the values of each group;
* `value_counts()` counts occurrences keyed in first-seen order and then
  applies the descending sort above;
* `quantile(0.3)` uses linear interpolation over the ascending-sorted values,
  exactly as pandas computes it, in exact rational arithmetic;
* `round(1)` is round-half-to-even at one decimal (numpy rounding), in ℚ;
* file reading is abstracted by oracles (`readExcel`, `readCsv`) and the
  external text generator by an oracle `Summary → Except String String`;
  `print` logging is I/O and stays outside the embedding.
-/

/-! ### Character and string helpers (kernel-reducible replacements for
`String` primitives that are implemented by position loops) -/

def charsEqFrom : List Char → List Char → Bool
  | [], _ => true
  | _ :: _, [] => false
  | a :: as, b :: bs => a == b && charsEqFrom as bs

/-- Containment test: does `hay` contain `needle` as a contiguous
sublist?  Models Python `needle in hay` on strings. -/
def hasSubChars (needle : List Char) : List Char → Bool
  | [] => charsEqFrom needle []
  | c :: cs => charsEqFrom needle (c :: cs) || hasSubChars needle cs

/-- Python `needle in hay` for strings. -/
def hasSub (hay needle : String) : Bool :=
  hasSubChars needle.data hay.data

def isSpaceChar (c : Char) : Bool :=
  c == ' ' || c == '\t' || c == '\n' || c == '\r'

/-- Python `str.strip()` (ASCII whitespace suffices for the model). -/
def trimStr (s : String) : String :=
  ⟨((s.data.dropWhile isSpaceChar).reverse.dropWhile isSpaceChar).reverse⟩

/-- Python `str.lower()` (ASCII case folding suffices for the model). -/
def lowerStr (s : String) : String :=
  ⟨s.data.map Char.toLower⟩

/-! ### Pandas-style sorting -/

/-- Stable ascending insertion: `x` is placed before the first element whose
measure is `≥` its own, so elements with equal measures keep their original
relative order. -/
def insertByAsc {α β : Type} [LinearOrder β] (f : α → β) (x : α) :
    List α → List α
  | [] => [x]
  | y :: ys => if f x ≤ f y then x :: y :: ys else y :: insertByAsc f x ys

/-- Stable ascending insertion sort by a measure, the model of the stable
argsort of numpy on the concrete inputs of this development. -/
def sortByAsc {α β : Type} [LinearOrder β] (f : α → β) : List α → List α
  | [] => []
  | x :: xs => insertByAsc f x (sortByAsc f xs)

/-- Pandas `sort_values(ascending := False)`: `nargsort` argsorts ascending
and reverses the indexer, so ties come out in reverse of their input order. -/
def pdSortDesc {α β : Type} [LinearOrder β] (f : α → β) (l : List α) : List α :=
  (sortByAsc f l).reverse

/-- Distinct elements in first-occurrence order (the key order of a pandas
hashtable-based aggregation before sorting). -/
def dedupF {α : Type} [DecidableEq α] : List α → List α
  | [] => []
  | x :: xs => x :: (dedupF xs).filter (fun y => y ≠ x)

/-! ### The data model -/

/-- One cell of a loaded table: text or an exact number. -/
inductive Cell : Type
  | s (v : String)
  | n (v : ℚ)
deriving DecidableEq

/-- The textual content of a cell (group keys; keyword columns are assumed
textual, a numeric cell is rendered for totality). -/
def cellStr : Cell → String
  | .s v => v
  | .n v => toString v.num

/-- The numeric content of a cell (count columns are assumed numeric). -/
def cellNum : Cell → ℚ
  | .s _ => 0
  | .n v => v

/-- A pandas `DataFrame`: named columns over rows of cells. -/
structure Table : Type where
  cols : List String
  rows : List (List Cell)
deriving DecidableEq

/-- Index of a column name (`df[c]` resolution). -/
def colIdx (cols : List String) (c : String) : ℕ :=
  cols.findIdx (fun x => x == c)

/-- Column access `df[c]`: the cell list of column `c`. -/
def column (t : Table) (c : String) : List Cell :=
  t.rows.map (fun r => r.getD (colIdx t.cols c) (Cell.s ""))

def strCol (t : Table) (c : String) : List String :=
  (column t c).map cellStr

def numCol (t : Table) (c : String) : List ℚ :=
  (column t c).map cellNum

/-! ### DataLoader.detect_columns -/

/-- The six logical roles of `DataLoader.detect_columns`.  `product_name`
has no detection loop in the source and therefore stays `None`. -/
structure ColMap : Type where
  keyword : Option String
  count : Option String
  category : Option String
  date : Option String
  price : Option String
  product_name : Option String
deriving DecidableEq

def keyword_candidates : List String :=
  ["검색어", "keyword", "상품명", "product", "품명", "제품명", "item"]

def count_candidates : List String :=
  ["검색량", "count", "주문량", "수량", "quantity", "건수", "횟수", "orders"]

def category_candidates : List String :=
  ["카테고리", "category", "분류", "대분류", "중분류"]

def date_candidates : List String :=
  ["날짜", "date", "주문일", "검색일", "일자", "order_date"]

def price_candidates : List String :=
  ["가격", "price", "금액", "단가", "amount", "엔", "jpy", "원"]

/-- Python `any(k in col for k in candidates)`. -/
def matchAny (cands : List String) (col : String) : Bool :=
  cands.any (fun k => hasSub col k)

/-- The first column, in table order, whose name contains a synonym. -/
def firstMatch (cands : List String) (cols : List String) : Option String :=
  cols.find? (matchAny cands)

/-- Embedding of `DataLoader.detect_columns` over the (normalized) column
names. -/
def detect_columns (cols : List String) : ColMap :=
  { keyword := firstMatch keyword_candidates cols
    count := firstMatch count_candidates cols
    category := firstMatch category_candidates cols
    date := firstMatch date_candidates cols
    price := firstMatch price_candidates cols
    product_name := none }

/-- Python truthiness of a role entry: `None` and the empty column name are
both falsy. -/
def isAssigned : Option String → Bool
  | none => false
  | some s => !(s == "")

/-! ### Rounding and quantile (numpy semantics in exact arithmetic) -/

/-- Round a rational to the nearest integer, halves to even (numpy). -/
def roundHalfEven (q : ℚ) : ℤ :=
  let f := ⌊q⌋
  if q - f < 1 / 2 then f
  else if (1 : ℚ) / 2 < q - f then f + 1
  else if f % 2 = 0 then f else f + 1

/-- Model of `Series.round(1)`: round to one decimal place. -/
def round1 (q : ℚ) : ℚ :=
  (roundHalfEven (q * 10) : ℚ) / 10

/-- Model of `Series.quantile(0.3)` with the default linear interpolation: with the
values sorted ascending and `h = (m-1)·0.3`, interpolate between positions
`⌊h⌋` and `⌊h⌋+1`.  (On an empty series pandas yields NaN, which fails every
comparison; the model returns 0, and the caller filters an empty list there
anyway, so the two agree on all observable results.) -/
def quantile30 (l : List ℚ) : ℚ :=
  let s := sortByAsc id l
  let m := s.length
  if m = 0 then 0
  else
    let h : ℚ := ((m - 1 : ℕ) : ℚ) * 3 / 10
    let i : ℕ := (⌊h⌋).toNat
    let lo := s.getD i 0
    let hi := s.getD (i + 1) lo
    lo + (h - (i : ℚ)) * (hi - lo)

/-! ### TrendAnalyzer -/

/-- The `(keyword cell, count cell)` pairs of the two semantic columns. -/
def kwPairs (t : Table) (kw cnt : String) : List (String × ℚ) :=
  (strCol t kw).zip (numCol t cnt)

/-- Model of `df.groupby(key)[val].sum()`: distinct keys sorted ascending
(pandas default `sort := True`), each with the sum of the values of its
group. -/
def groupbySum (l : List (String × ℚ)) : List (String × ℚ) :=
  (sortByAsc id (dedupF (l.map Prod.fst))).map
    (fun k => (k, ((l.filter (fun pr => pr.1 = k)).map Prod.snd).sum))

/-- The key/count content of `value_counts()` before its descending sort:
distinct keys in first-occurrence order with occurrence counts. -/
def rawCounts (keys : List String) : List (String × ℚ) :=
  (dedupF keys).map (fun k => (k, (keys.count k : ℚ)))

/-- Model of `Series.value_counts()`: occurrence counts sorted
descending. -/
def valueCounts (keys : List String) : List (String × ℚ) :=
  pdSortDesc (fun pr => pr.2) (rawCounts keys)

/-- Embedding of `TrendAnalyzer.get_top_keywords` (source lines 119-132). -/
def get_top_keywords (t : Table) (cm : ColMap) (n : ℕ) : List (String × ℚ) :=
  if !isAssigned cm.keyword || !isAssigned cm.count then
    if isAssigned cm.keyword then
      (valueCounts (strCol t (cm.keyword.getD ""))).take n
    else []
  else
    (pdSortDesc (fun pr => pr.2)
      (groupbySum (kwPairs t (cm.keyword.getD "") (cm.count.getD "")))).take n

/-- Embedding of `TrendAnalyzer.get_category_stats` (source lines 134-146): empty when the
category role is unassigned; otherwise group-sum by category when a count
role is assigned, else occurrence counts; then sorted descending. -/
def get_category_stats (t : Table) (cm : ColMap) : List (String × ℚ) :=
  if !isAssigned cm.category then []
  else
    let stats :=
      if isAssigned cm.count then
        groupbySum (kwPairs t (cm.category.getD "") (cm.count.getD ""))
      else valueCounts (strCol t (cm.category.getD ""))
    pdSortDesc (fun pr => pr.2) stats

/-- One row of the `combined` frame of `get_rising_keywords`. -/
structure RisingEntry : Type where
  keyword : String
  current : ℚ
  previous : ℚ
  change_rate : ℚ
deriving DecidableEq

/-- The per-period aggregation of `get_rising_keywords`: group-sum when a
count role is assigned, occurrence counts otherwise.  Only its key/value
content matters, the outer join below re-sorts the keys. -/
def aggMapFor (t : Table) (cm : ColMap) : List (String × ℚ) :=
  if isAssigned cm.count then
    groupbySum (kwPairs t (cm.keyword.getD "") (cm.count.getD ""))
  else rawCounts (strCol t (cm.keyword.getD ""))

/-- Index lookup with pandas `fillna(0)`. -/
def lookupD (m : List (String × ℚ)) (k : String) : ℚ :=
  ((m.find? (fun pr => pr.1 == k)).map Prod.snd).getD 0

/-- The outer-joined frame `combined` of `get_rising_keywords` (source lines
166-172): the union of the two key sets sorted ascending (pandas index
union), missing counts filled with 0, and the change rate
`((current - previous) / previous.replace(0, 1) * 100).round(1)`. -/
def risingCombined (t p : Table) (cm : ColMap) : List RisingEntry :=
  if !isAssigned cm.keyword then []
  else
    let cur := aggMapFor t cm
    let prev := aggMapFor p cm
    let keys := sortByAsc id (dedupF (cur.map Prod.fst ++ prev.map Prod.fst))
    keys.map (fun k =>
      let c := lookupD cur k
      let pv := lookupD prev k
      { keyword := k, current := c, previous := pv
        change_rate := round1 ((c - pv) / (if pv = 0 then 1 else pv) * 100) })

/-- The rows of `combined` that pass the rising filter (source lines
175-178): rounded change rate at least 100 and current count at least the
0.3-quantile of all joined current counts. -/
def risingPassing (t p : Table) (cm : ColMap) : List RisingEntry :=
  let comb := risingCombined t p cm
  let q := quantile30 (comb.map RisingEntry.current)
  comb.filter (fun e =>
    decide (100 ≤ e.change_rate) && decide (q ≤ e.current))

/-- Embedding of `TrendAnalyzer.get_rising_keywords` (source lines
148-180). -/
def get_rising_keywords (t p : Table) (cm : ColMap) (n : ℕ) :
    List RisingEntry :=
  (pdSortDesc (fun e => e.change_rate) (risingPassing t p cm)).take n

/-- Result record of `TrendAnalyzer.generate_summary` (source lines
182-196).
`top_1` holds the `top_1_keyword` / `top_1_count` pair, present exactly when
the top-keyword list is non-empty. -/
structure Summary : Type where
  total_records : ℕ
  top_keywords : List (String × ℚ)
  category_stats : List (String × ℚ)
  analysis_date : String
  top_1 : Option (String × ℚ)
deriving DecidableEq

/-- Embedding of `TrendAnalyzer.generate_summary`; the `datetime.now()` stamp is
passed in as `today`. -/
def generate_summary (t : Table) (cm : ColMap) (today : String) : Summary :=
  let tk := get_top_keywords t cm 20
  { total_records := t.rows.length
    top_keywords := tk
    category_stats := get_category_stats t cm
    analysis_date := today
    top_1 := tk.head? }

/-! ### Number rendering (kernel-reducible) -/

def digitChar (d : ℕ) : Char := Char.ofNat (48 + d)

/-- Decimal digits, least significant first, with structural fuel. -/
def natDigitsRev : ℕ → ℕ → List Char
  | 0, _ => []
  | fuel + 1, n =>
    if n < 10 then [digitChar n]
    else digitChar (n % 10) :: natDigitsRev fuel (n / 10)

def natStr (n : ℕ) : String := ⟨(natDigitsRev (n + 1) n).reverse⟩

def intStr (z : ℤ) : String :=
  if z < 0 then "-" ++ natStr z.natAbs else natStr z.natAbs

/-- Insert a thousands separator every three digits of a reversed digit
list. -/
def group3 : List Char → List Char
  | a :: b :: c :: d :: rest => a :: b :: c :: ',' :: group3 (d :: rest)
  | l => l

def commaFmtNat (n : ℕ) : String := ⟨(group3 (natDigitsRev (n + 1) n)).reverse⟩

/-- Python `f-string` `:,` formatting of a count.  Counts are integral in
all observable data; a non-integral rational is rendered as a fraction. -/
def commaFmt (q : ℚ) : String :=
  if q.den = 1 then
    (if q.num < 0 then "-" ++ commaFmtNat q.num.natAbs
     else commaFmtNat q.num.natAbs)
  else intStr q.num ++ "/" ++ natStr q.den

def joinSep (sep : String) : List String → String
  | [] => ""
  | [x] => x
  | x :: y :: rest => x ++ sep ++ joinSep sep (y :: rest)

/-! ### ContentGenerator -/

/-- Embedding of `ContentGenerator._generate_template` (source lines
217-247).  The decorative quote characters of the source around
interpolated names are elided;
every interpolated field and the surrounding boilerplate sentences are
preserved, and the final `strip()` is `trimStr`. -/
def generate_template (s : Summary) : String :=
  let top5 := s.top_keywords.take 5
  let cats := s.category_stats.take 3
  let keyword_list := joinSep ", " (top5.map Prod.fst)
  let category_text :=
    match cats with
    | c :: _ => "카테고리별로는 " ++ c.1 ++ "가 가장 높은 관심을 받고 있습니다."
    | [] => ""
  trimStr
    ("이번 기간 비드바이 고객들의 검색 트렌드를 분석했습니다.\n\n가장 많이 검색된 키워드는 "
      ++ (s.top_1.map Prod.fst).getD "-" ++ "로, \n총 "
      ++ commaFmt ((s.top_1.map Prod.snd).getD 0)
      ++ "건의 검색이 발생했습니다.\n\nTOP 5 인기 키워드: " ++ keyword_list
      ++ "\n\n" ++ category_text
      ++ "\n\n20년간의 데이터를 바탕으로 엄선한 인기 상품들을 \n비드바이 셀렉트에서 만나보세요!")

/-- Embedding of `ContentGenerator._generate_with_ai` (source lines 249-284): the
external text generator is an oracle; any failure falls back to the
template (the source catches every exception; its warning `print` is I/O
and outside the model). -/
def generate_with_ai (api : Summary → Except String String) (s : Summary) :
    String :=
  match api s with
  | .ok text => text
  | .error _ => generate_template s

/-- Embedding of `ContentGenerator.generate_trend_text` (source lines
209-215). -/
def generate_trend_text (useAI : Bool) (api : Summary → Except String String)
    (s : Summary) : String :=
  if useAI then generate_with_ai api s else generate_template s

/-! ### NewsletterGenerator (decorative CSS markup elided, per the spec the
HTML templating itself is externally irrelevant; the interpolated data and
the one conditional — omit the category section when empty — are kept) -/

def rankIcon (i : ℕ) : String :=
  if i ≤ 3 then "🔥" else if i ≤ 5 then "📈" else ""

def keywordRowHtml (pr : ℕ × (String × ℚ)) : String :=
  "<tr><td>" ++ natStr pr.1 ++ "</td><td>" ++ pr.2.1 ++ " " ++ rankIcon pr.1
    ++ "</td><td>" ++ commaFmt pr.2.2 ++ "건</td></tr>"

/-- Python `int()` truncation toward zero. -/
def ratTrunc (q : ℚ) : ℤ := q.num / q.den

def categoryBarHtml (maxCount : ℚ) (cat : String × ℚ) : String :=
  "<div><span>" ++ cat.1 ++ "</span><span>" ++ commaFmt cat.2
    ++ "</span><div style=\"width: " ++ intStr (ratTrunc (cat.2 / maxCount * 100))
    ++ "%\"></div></div>"

def categoryBars (cats : List (String × ℚ)) : String :=
  match cats with
  | [] => ""
  | c0 :: _ => joinSep "" (cats.map (categoryBarHtml c0.2))

/-- Embedding of `NewsletterGenerator.generate_html` (source lines
298-403). -/
def generate_html (s : Summary) (trend_text : String) : String :=
  let top10 := s.top_keywords.take 10
  let bars := categoryBars (s.category_stats.take 5)
  "<!DOCTYPE html><html><head><meta charset=\"UTF-8\"><title>비드바이 주간 트렌드</title></head><body>"
    ++ "<h1>📊 비드바이 주간 트렌드</h1><p>" ++ s.analysis_date
    ++ " 기준 | 20년 데이터 기반 분석</p>"
    ++ "<p>🔥 이번 주 검색 1위</p><h2>" ++ (s.top_1.map Prod.fst).getD "-"
    ++ "</h2><p>" ++ commaFmt ((s.top_1.map Prod.snd).getD 0) ++ "건 검색</p>"
    ++ "<h3>📈 인기 검색어 TOP 10</h3><table><tbody>"
    ++ joinSep "" ((top10.enumFrom 1).map keywordRowHtml) ++ "</tbody></table>"
    ++ (if bars = "" then "" else "<h3>📦 카테고리별 인기도</h3>" ++ bars)
    ++ "<h3>💡 이번 주 트렌드 분석</h3><p>" ++ trend_text ++ "</p>"
    ++ "<p>비드바이코리아 | 20년 전통 일본 구매대행</p></body></html>"

/-! ### ReportGenerator -/

/-- The sheet contents of `ReportGenerator.save_excel` (source lines
425-449): the top-keyword sheet, the category sheet written only when the
stats are non-empty, and the one-row summary sheet. -/
structure ExcelReport : Type where
  top_sheet : List (String × ℚ)
  category_sheet : Option (List (String × ℚ))
  summary_date : String
  summary_total : ℕ
  summary_top1_keyword : String
  summary_top1_count : ℚ
deriving DecidableEq

def save_excel (s : Summary) : ExcelReport :=
  { top_sheet := s.top_keywords
    category_sheet :=
      if s.category_stats.isEmpty then none else some s.category_stats
    summary_date := s.analysis_date
    summary_total := s.total_records
    summary_top1_keyword := (s.top_1.map Prod.fst).getD ""
    summary_top1_count := (s.top_1.map Prod.snd).getD 0 }

/-! ### DataLoader.load -/

/-- Last index of a character in a list, if present. -/
def lastIdxOf (c : Char) : List Char → Option ℕ
  | [] => none
  | x :: xs =>
    match lastIdxOf c xs with
    | some i => some (i + 1)
    | none => if x == c then some 0 else none

def afterLastSlash (l : List Char) : List Char :=
  match lastIdxOf '/' l with
  | some i => l.drop (i + 1)
  | none => l

/-- Model of `pathlib.Path(p).suffix`: the extension of the final path component —
the part from its last dot, provided that dot is neither the first nor the
last character of the component. -/
def pySuffix (p : String) : String :=
  let name := afterLastSlash p.data
  match lastIdxOf '.' name with
  | some i => if 0 < i ∧ i + 1 < name.length then ⟨name.drop i⟩ else ""
  | none => ""

def suffixLower (p : String) : String := lowerStr (pySuffix p)

/-- Column-name normalization applied after parsing (source line 51):
`strip()` then `lower()` on every column name. -/
def normalizeCols (t : Table) : Table :=
  ⟨t.cols.map (fun c => lowerStr (trimStr c)), t.rows⟩

/-- The encoding loop of `DataLoader.load` (source lines 41-46): try each
encoding in order, keep the first successful parse.  `readCsv` is the
`pd.read_csv` oracle for the file being loaded. -/
def tryEncodings (readCsv : String → Option Table) : List String → Option Table
  | [] => none
  | e :: es =>
    match readCsv e with
    | some t => some t
    | none => tryEncodings readCsv es

def encodingCandidates : List String := ["utf-8", "cp949", "euc-kr"]

def unsupportedMsg (ext : String) : String := "지원하지 않는 파일 형식: " ++ ext

/-- Outcome of `DataLoader.load`.  `errUnsupportedFormat` is the raised
`ValueError` with its message; `errNoneColumns` is the `AttributeError`
crash at `self.df.columns` when every encoding failed and `self.df` is
still `None` — the source raises no dedicated encoding error. -/
inductive LoadResult : Type
  | ok (t : Table)
  | errUnsupportedFormat (msg : String)
  | errNoneColumns
deriving DecidableEq

/-- Embedding of `DataLoader.load` (source lines 33-56); `readExcel` abstracts
`pd.read_excel` of the file. -/
def load (path : String) (readExcel : Table)
    (readCsv : String → Option Table) : LoadResult :=
  if suffixLower path = ".xlsx" ∨ suffixLower path = ".xls" then
    .ok (normalizeCols readExcel)
  else if suffixLower path = ".csv" then
    match tryEncodings readCsv encodingCandidates with
    | some t => .ok (normalizeCols t)
    | none => .errNoneColumns
  else .errUnsupportedFormat (unsupportedMsg (suffixLower path))

/-! ### The main pipeline -/

/-- The three artifacts the run writes (HTML newsletter, spreadsheet
report, JSON dump of the summary). -/
structure RunOutputs : Type where
  html : String
  excel : ExcelReport
  json : Summary
deriving DecidableEq

/-- The content-generation and rendering stages of `main` (source lines
487-515; the optional year-over-year branch is not exercised by any claim
and is omitted). -/
def runPipeline (t : Table) (cm : ColMap) (today : String) (useAI : Bool)
    (api : Summary → Except String String) : RunOutputs :=
  { html := generate_html (generate_summary t cm today)
      (generate_trend_text useAI api (generate_summary t cm today))
    excel := save_excel (generate_summary t cm today)
    json := generate_summary t cm today }

/-- Embedding of `main` from loading onward: a fatal load error aborts the run before
any output is produced. -/
def runMain (path : String) (readExcel : Table)
    (readCsv : String → Option Table) (today : String) (useAI : Bool)
    (api : Summary → Except String String) : Option RunOutputs :=
  match load path readExcel readCsv with
  | .ok t => some (runPipeline t (detect_columns t.cols) today useAI api)
  | _ => none

/-! ### Auxiliary predicates and concrete tables used by the claims -/

/-- A cell holding a natural number — the shape of genuine count data.
(`replace(0, 1)` and `max(previous, 1)` agree exactly on natural counts.) -/
def natCellB : Cell → Bool
  | .s _ => false
  | .n q => decide (q.den = 1) && decide (0 ≤ q.num)

/-- Every cell of the detected count column (if any) is a natural number. -/
def countColNat (t : Table) (cm : ColMap) : Bool :=
  match cm.count with
  | none => true
  | some c => (column t c).all natCellB

/-- A rational that is (the cast of) a natural number. -/
def natQ (q : ℚ) : Prop := ∃ m : ℕ, q = (m : ℚ)

/-- Specification predicate: `o` is the first column of `cols` matching one
of `cands` by substring
containment, or `none` when no column matches. -/
def FirstMatchSpec (cands cols : List String) (o : Option String) : Prop :=
  (o = none ∧ ∀ c ∈ cols, matchAny cands c = false) ∨
  (∃ l₁ l₂ c, o = some c ∧ cols = l₁ ++ c :: l₂ ∧ matchAny cands c = true ∧
    ∀ x ∈ l₁, matchAny cands x = false)

/-- The worked scenario of the spec: columns [상품명, 검색량], three rows. -/
def scenarioTable : Table :=
  ⟨["상품명", "검색량"],
   [[Cell.s "노트북", Cell.n 50], [Cell.s "마우스", Cell.n 30],
    [Cell.s "노트북", Cell.n 10]]⟩

/-- Two keywords with equal summed counts, first encountered in the order
`a`, `b`. -/
def tieTable : Table :=
  ⟨["상품명", "검색량"], [[Cell.s "a", Cell.n 5], [Cell.s "b", Cell.n 5]]⟩

/-- A table with a count column but no category column. -/
def countOnlyTable : Table := ⟨["검색량"], [[Cell.n 5]]⟩

/-- A table with both a category and a count column. -/
def catTable : Table :=
  ⟨["카테고리", "수량"],
   [[Cell.s "가전", Cell.n 3], [Cell.s "패션", Cell.n 2],
    [Cell.s "가전", Cell.n 1]]⟩

/-- The rising-keyword example of the spec, current period: (A: 20, B: 5). -/
def exCur : Table :=
  ⟨["검색어", "검색량"], [[Cell.s "A", Cell.n 20], [Cell.s "B", Cell.n 5]]⟩

/-- The rising-keyword example of the spec, previous period: A: 5, B absent. -/
def exPrev : Table := ⟨["검색어", "검색량"], [[Cell.s "A", Cell.n 5]]⟩

def exMap : ColMap := detect_columns ["검색어", "검색량"]


/-! ### Lemmas about the sorting model -/

section SortLemmas

variable {α β : Type} [LinearOrder β]

theorem insertByAsc_perm (f : α → β) (x : α) (l : List α) :
    (insertByAsc f x l).Perm (x :: l) := by
  induction l with
  | nil => exact List.Perm.refl _
  | cons y ys ih =>
    by_cases h : f x ≤ f y
    · simp [insertByAsc, h]
    · simp only [insertByAsc, if_neg h]
      exact (ih.cons y).trans (List.Perm.swap x y ys)

theorem sortByAsc_perm (f : α → β) (l : List α) : (sortByAsc f l).Perm l := by
  induction l with
  | nil => exact List.Perm.refl _
  | cons x xs ih =>
    exact (insertByAsc_perm f x (sortByAsc f xs)).trans (ih.cons x)

theorem insertByAsc_pairwise (f : α → β) (x : α) {l : List α}
    (h : l.Pairwise (fun a b => f a ≤ f b)) :
    (insertByAsc f x l).Pairwise (fun a b => f a ≤ f b) := by
  induction l with
  | nil => simp [insertByAsc]
  | cons y ys ih =>
    rw [List.pairwise_cons] at h
    by_cases hxy : f x ≤ f y
    · simp only [insertByAsc, if_pos hxy]
      rw [List.pairwise_cons]
      refine ⟨?_, List.pairwise_cons.mpr h⟩
      intro z hz
      rcases List.mem_cons.mp hz with rfl | hz'
      · exact hxy
      · exact le_trans hxy (h.1 z hz')
    · simp only [insertByAsc, if_neg hxy]
      rw [List.pairwise_cons]
      refine ⟨?_, ih h.2⟩
      intro z hz
      rcases List.mem_cons.mp ((insertByAsc_perm f x ys).mem_iff.mp hz) with
        rfl | hz'
      · exact (not_le.mp hxy).le
      · exact h.1 z hz'

theorem sortByAsc_pairwise (f : α → β) (l : List α) :
    (sortByAsc f l).Pairwise (fun a b => f a ≤ f b) := by
  induction l with
  | nil => simp [sortByAsc]
  | cons x xs ih => exact insertByAsc_pairwise f x ih

theorem pdSortDesc_perm (f : α → β) (l : List α) : (pdSortDesc f l).Perm l :=
  (List.reverse_perm _).trans (sortByAsc_perm f l)

theorem pdSortDesc_pairwise (f : α → β) (l : List α) :
    (pdSortDesc f l).Pairwise (fun a b => f b ≤ f a) := by
  unfold pdSortDesc
  rw [List.pairwise_reverse]
  exact sortByAsc_pairwise f l

theorem take_pdSortDesc_pairwise (f : α → β) (l : List α) (n : ℕ) :
    ((pdSortDesc f l).take n).Pairwise (fun a b => f b ≤ f a) :=
  (pdSortDesc_pairwise f l).sublist (List.take_sublist n _)

end SortLemmas

section DedupLemmas

variable {α : Type} [DecidableEq α]

theorem dedupF_mem (x : α) (l : List α) : x ∈ dedupF l ↔ x ∈ l := by
  induction l with
  | nil => simp [dedupF]
  | cons a as ih =>
    simp only [dedupF, List.mem_cons, List.mem_filter, ih,
      decide_eq_true_eq]
    by_cases h : x = a <;> simp [h]

theorem dedupF_nodup (l : List α) : (dedupF l).Nodup := by
  induction l with
  | nil => simp [dedupF]
  | cons a as ih =>
    rw [dedupF, List.nodup_cons]
    refine ⟨?_, List.Nodup.filter _ ih⟩
    intro hmem
    have := (List.mem_filter.mp hmem).2
    simp at this

end DedupLemmas

/-! ### Sum lemmas for the aggregations -/

section SumLemmas

variable {K : Type}

theorem sum_map_zero (ks : List K) : (ks.map fun _ => (0 : ℚ)).sum = 0 := by
  induction ks <;> simp [*]

theorem sum_map_add (g h : K → ℚ) (ks : List K) :
    (ks.map fun k => g k + h k).sum = (ks.map g).sum + (ks.map h).sum := by
  induction ks with
  | nil => simp
  | cons a as ih => simp only [List.map_cons, List.sum_cons, ih]; ring

theorem sum_map_ite_not_mem [DecidableEq K] (a : K) (v : ℚ) (ks : List K)
    (h : a ∉ ks) :
    (ks.map fun k => if a = k then v else 0).sum = 0 := by
  induction ks with
  | nil => simp
  | cons b bs ih =>
    simp only [List.map_cons, List.sum_cons]
    have hab : ¬a = b := by
      intro hab
      exact h (by rw [hab]; exact List.mem_cons_self b bs)
    rw [if_neg hab, ih (fun hb => h (List.mem_cons_of_mem _ hb))]
    simp

theorem sum_map_ite_mem [DecidableEq K] (a : K) (v : ℚ) (ks : List K)
    (hnd : ks.Nodup) (hmem : a ∈ ks) :
    (ks.map fun k => if a = k then v else 0).sum = v := by
  induction ks with
  | nil => simp at hmem
  | cons b bs ih =>
    rw [List.nodup_cons] at hnd
    simp only [List.map_cons, List.sum_cons]
    rcases List.mem_cons.mp hmem with rfl | hmem'
    · rw [if_pos rfl, sum_map_ite_not_mem a v bs hnd.1]
      simp
    · have hab : ¬a = b := by
        intro hab
        rw [hab] at hmem'
        exact hnd.1 hmem'
      rw [if_neg hab, ih hnd.2 hmem']
      simp

theorem sum_partition (l : List (String × ℚ)) (ks : List String)
    (hnd : ks.Nodup) (hcov : ∀ pr ∈ l, pr.1 ∈ ks) :
    (ks.map fun k =>
      ((l.filter fun pr => pr.1 = k).map Prod.snd).sum).sum
      = (l.map Prod.snd).sum := by
  induction l with
  | nil => simp [sum_map_zero ks]
  | cons hd tl ih =>
    obtain ⟨a, v⟩ := hd
    have hterm : ∀ k ∈ ks,
        ((((a, v) :: tl).filter fun pr => pr.1 = k).map Prod.snd).sum
          = (if a = k then v else 0)
            + ((tl.filter fun pr => pr.1 = k).map Prod.snd).sum := by
      intro k _
      by_cases h : a = k
      · simp [List.filter_cons, h]
      · simp [List.filter_cons, h]
    rw [List.map_congr_left hterm, sum_map_add,
      sum_map_ite_mem a v ks hnd (hcov (a, v) (List.mem_cons_self _ _)),
      ih (fun pr hpr => hcov pr (List.mem_cons_of_mem _ hpr))]
    simp

end SumLemmas

/-! ### Lemmas about the aggregations -/

theorem groupbySum_mem_snd (l : List (String × ℚ)) :
    ∀ pr ∈ groupbySum l,
      pr.2 = ((l.filter fun q => q.1 = pr.1).map Prod.snd).sum := by
  intro pr hpr
  unfold groupbySum at hpr
  obtain ⟨k, _, rfl⟩ := List.mem_map.mp hpr
  rfl

theorem groupbySum_snd_sum (l : List (String × ℚ)) :
    ((groupbySum l).map Prod.snd).sum = (l.map Prod.snd).sum := by
  unfold groupbySum
  rw [List.map_map]
  have hperm := sortByAsc_perm (id : String → String) (dedupF (l.map Prod.fst))
  have hnd : (sortByAsc (id : String → String)
      (dedupF (l.map Prod.fst))).Nodup :=
    hperm.nodup_iff.mpr (dedupF_nodup _)
  exact sum_partition l _ hnd (fun pr hpr =>
    hperm.mem_iff.mpr ((dedupF_mem _ _).mpr (List.mem_map_of_mem Prod.fst hpr)))

theorem rawCounts_mem (keys : List String) :
    ∀ pr ∈ rawCounts keys, pr.2 = (keys.count pr.1 : ℚ) := by
  intro pr hpr
  unfold rawCounts at hpr
  obtain ⟨k, _, rfl⟩ := List.mem_map.mp hpr
  rfl

theorem count_pairs_sum (keys : List String) (k : String) :
    (((keys.map fun x => (x, (1 : ℚ))).filter
      fun pr => pr.1 = k).map Prod.snd).sum = (keys.count k : ℚ) := by
  induction keys with
  | nil => simp
  | cons a as ih =>
    by_cases h : a = k
    · subst h
      simp only [List.map_cons, List.filter_cons, List.count_cons]
      simp [ih]
      ring
    · simp only [List.map_cons, List.filter_cons, List.count_cons]
      have hne : (k == a) = false := by
        simp [beq_eq_false_iff_ne]
        exact fun hk => h hk.symm
      simp [h, hne, ih]

theorem ones_sum (keys : List String) :
    (keys.map fun _ => (1 : ℚ)).sum = (keys.length : ℚ) := by
  induction keys with
  | nil => simp
  | cons a as ih => simp [ih]; ring

theorem rawCounts_snd_sum (keys : List String) :
    ((rawCounts keys).map Prod.snd).sum = (keys.length : ℚ) := by
  unfold rawCounts
  rw [List.map_map]
  have h1 : List.map ((Prod.snd ∘ fun k => (k, (keys.count k : ℚ))))
      (dedupF keys)
      = List.map (fun k =>
          (((keys.map fun x => (x, (1 : ℚ))).filter
            fun pr => pr.1 = k).map Prod.snd).sum) (dedupF keys) :=
    List.map_congr_left (fun k _ => (count_pairs_sum keys k).symm)
  rw [h1, sum_partition (keys.map fun x => (x, (1 : ℚ))) (dedupF keys)
    (dedupF_nodup keys) ?_]
  · rw [List.map_map]
    exact ones_sum keys
  · intro pr hpr
    obtain ⟨x, hx, rfl⟩ := List.mem_map.mp hpr
    exact (dedupF_mem _ _).mpr hx

/-! ### Column lemmas -/

theorem strCol_length (t : Table) (c : String) :
    (strCol t c).length = t.rows.length := by
  simp [strCol, column]

theorem numCol_length (t : Table) (c : String) :
    (numCol t c).length = t.rows.length := by
  simp [numCol, column]

theorem kwPairs_snd (t : Table) (kw cnt : String) :
    (kwPairs t kw cnt).map Prod.snd = numCol t cnt := by
  apply List.map_snd_zip
  rw [strCol_length, numCol_length]

theorem column_nil (t : Table) (c : String) (h : t.rows = []) :
    column t c = [] := by
  simp [column, h]

theorem strCol_nil (t : Table) (c : String) (h : t.rows = []) :
    strCol t c = [] := by
  simp [strCol, column_nil t c h]

theorem kwPairs_nil (t : Table) (kw cnt : String) (h : t.rows = []) :
    kwPairs t kw cnt = [] := by
  simp [kwPairs, strCol_nil t kw h]

/-! ### Natural-valued counts -/

theorem natQ_zero : natQ 0 := ⟨0, by simp⟩

theorem natQ_sum (l : List ℚ) (h : ∀ x ∈ l, natQ x) : natQ l.sum := by
  induction l with
  | nil => simpa using natQ_zero
  | cons a as ih =>
    obtain ⟨m, hm⟩ := h a (List.mem_cons_self a as)
    obtain ⟨s, hs⟩ := ih (fun x hx => h x (List.mem_cons_of_mem _ hx))
    exact ⟨m + s, by simp [hm, hs]⟩

theorem natCellB_natQ (c : Cell) (h : natCellB c = true) : natQ (cellNum c) := by
  cases c with
  | s v => simp [natCellB] at h
  | n q =>
    simp only [natCellB, Bool.and_eq_true, decide_eq_true_eq] at h
    refine ⟨q.num.toNat, ?_⟩
    have h1 : ((q.num : ℚ)) = q := by
      have := Rat.num_div_den q
      rw [h.1] at this
      simpa using this
    have h2 : ((q.num.toNat : ℤ)) = q.num := Int.toNat_of_nonneg h.2
    rw [cellNum, ← h1]
    exact_mod_cast h2.symm

theorem lookupD_natQ (m : List (String × ℚ)) (k : String)
    (h : ∀ pr ∈ m, natQ pr.2) : natQ (lookupD m k) := by
  unfold lookupD
  cases hf : m.find? (fun pr => pr.1 == k) with
  | none => simpa using natQ_zero
  | some pr =>
    simpa using h pr (List.mem_of_find?_eq_some hf)

theorem aggMapFor_natQ (t : Table) (cm : ColMap)
    (h : countColNat t cm = true) : ∀ pr ∈ aggMapFor t cm, natQ pr.2 := by
  intro pr hpr
  unfold aggMapFor at hpr
  by_cases hc : isAssigned cm.count = true
  · rw [if_pos hc] at hpr
    rw [groupbySum_mem_snd _ pr hpr]
    apply natQ_sum
    intro x hx
    obtain ⟨q, hq, rfl⟩ := List.mem_map.mp hx
    have hq' : q ∈ kwPairs t (cm.keyword.getD "") (cm.count.getD "") :=
      List.mem_of_mem_filter hq
    have hsnd : q.2 ∈ numCol t (cm.count.getD "") := by
      rw [← kwPairs_snd t (cm.keyword.getD "") (cm.count.getD "")]
      exact List.mem_map_of_mem Prod.snd hq'
    obtain ⟨cell, hcell, hq2⟩ := List.mem_map.mp hsnd
    rw [← hq2]
    apply natCellB_natQ
    obtain ⟨c, hcm⟩ : ∃ c, cm.count = some c := by
      cases hcc : cm.count with
      | none => rw [hcc] at hc; simp [isAssigned] at hc
      | some c => exact ⟨c, rfl⟩
    rw [countColNat, hcm] at h
    rw [hcm] at hcell
    exact List.all_eq_true.mp h cell hcell
  · rw [if_neg hc] at hpr
    unfold rawCounts at hpr
    obtain ⟨k, _, rfl⟩ := List.mem_map.mp hpr
    exact ⟨_, rfl⟩

theorem natQ_divisor (p : ℚ) (h : natQ p) :
    (if p = 0 then (1 : ℚ) else p) = max p 1 := by
  obtain ⟨m, rfl⟩ := h
  cases m with
  | zero => simp
  | succ k =>
    have h1 : ((k + 1 : ℕ) : ℚ) ≠ 0 := Nat.cast_ne_zero.mpr (Nat.succ_ne_zero k)
    have h2 : (1 : ℚ) ≤ ((k + 1 : ℕ) : ℚ) := by
      exact_mod_cast Nat.succ_le_succ (Nat.zero_le k)
    rw [if_neg h1, max_eq_left h2]

/-! ### The first-match characterization of `find?` -/

theorem find_first {α : Type} (p : α → Bool) :
    ∀ (l : List α) (a : α), l.find? p = some a →
      ∃ l₁ l₂, l = l₁ ++ a :: l₂ ∧ (∀ x ∈ l₁, p x = false) ∧ p a = true := by
  intro l
  induction l with
  | nil => intro a h; simp at h
  | cons b bs ih =>
    intro a h
    cases hb : p b with
    | true =>
      rw [List.find?_cons_of_pos _ hb] at h
      obtain rfl : b = a := by injection h
      exact ⟨[], bs, rfl, by simp, hb⟩
    | false =>
      rw [List.find?_cons_of_neg _ (by simp [hb])] at h
      obtain ⟨l₁, l₂, rfl, h1, h2⟩ := ih a h
      exact ⟨b :: l₁, l₂, rfl, by
        intro x hx
        rcases List.mem_cons.mp hx with rfl | hx'
        · exact hb
        · exact h1 x hx', h2⟩

theorem firstMatch_spec (cands cols : List String) :
    FirstMatchSpec cands cols (firstMatch cands cols) := by
  cases h : cols.find? (matchAny cands) with
  | none =>
    left
    refine ⟨h, ?_⟩
    intro c hc
    have := List.find?_eq_none.mp h c hc
    simpa using this
  | some c =>
    right
    obtain ⟨l₁, l₂, rfl, h1, h2⟩ := find_first (matchAny cands) cols c h
    exact ⟨l₁, l₂, c, h, rfl, h2, h1⟩

/-! ### The analyzer on an empty table -/

theorem get_top_keywords_nil (t : Table) (cm : ColMap) (n : ℕ)
    (h : t.rows = []) : get_top_keywords t cm n = [] := by
  unfold get_top_keywords
  split
  · split
    · rw [strCol_nil t _ h, show valueCounts [] = [] from rfl, List.take_nil]
    · rfl
  · rw [kwPairs_nil t _ _ h,
      show pdSortDesc (fun pr : String × ℚ => pr.2) (groupbySum []) = []
        from rfl,
      List.take_nil]

theorem get_category_stats_nil (t : Table) (cm : ColMap) (h : t.rows = []) :
    get_category_stats t cm = [] := by
  unfold get_category_stats
  split
  · rfl
  · show pdSortDesc (fun pr => pr.2)
      (if isAssigned cm.count = true then
        groupbySum (kwPairs t (cm.category.getD "") (cm.count.getD ""))
      else valueCounts (strCol t (cm.category.getD ""))) = []
    split
    · rw [kwPairs_nil t _ _ h]
      rfl
    · rw [strCol_nil t _ h]
      rfl

theorem generate_summary_nil (t : Table) (cm : ColMap) (today : String)
    (h : t.rows = []) :
    generate_summary t cm today = ⟨0, [], [], today, none⟩ := by
  unfold generate_summary
  rw [get_top_keywords_nil t cm 20 h, get_category_stats_nil t cm h, h]
  rfl

/-! ### The claims -/

/-- C1: every entry of the outer-joined frame built by the rising-keyword
computation carries the change rate
`(current − previous) / max(previous, 1) × 100` rounded to one decimal —
the source divides by `previous.replace(0, 1)`, which coincides with
`max(previous, 1)` whenever the aggregated previous count is a natural
number (always for the frequency fallback, and for any genuinely
natural-valued count column), and a keyword absent from one table is filled
with count 0 by the outer join.  In particular, on the example of the spec
(current A: 20 and B: 5, previous A: 5, B absent) the change rate of A is
300.0 and that of B is 500.0. -/
theorem rising_change_rate_formula :
    (∀ (t p : Table) (cm : ColMap), countColNat p cm = true →
      ∀ e ∈ risingCombined t p cm,
        e.change_rate
          = round1 ((e.current - e.previous) / max e.previous 1 * 100))
    ∧ risingCombined exCur exPrev exMap
        = [⟨"A", 20, 5, 300⟩, ⟨"B", 5, 0, 500⟩] := by
  constructor
  · intro t p cm hp e he
    unfold risingCombined at he
    cases hk : isAssigned cm.keyword with
    | false => rw [hk] at he; simp at he
    | true =>
      rw [hk] at he
      simp only [Bool.not_true, Bool.false_eq_true, if_false] at he
      obtain ⟨k, hkmem, rfl⟩ := List.mem_map.mp he
      have hnat : natQ (lookupD (aggMapFor p cm) k) :=
        lookupD_natQ _ _ (aggMapFor_natQ p cm hp)
      show round1 ((lookupD (aggMapFor t cm) k - lookupD (aggMapFor p cm) k)
          / (if lookupD (aggMapFor p cm) k = 0 then 1
             else lookupD (aggMapFor p cm) k) * 100)
        = round1 ((lookupD (aggMapFor t cm) k - lookupD (aggMapFor p cm) k)
          / max (lookupD (aggMapFor p cm) k) 1 * 100)
      rw [natQ_divisor _ hnat]
  · with_unfolding_all decide

/-- Witness for C1: the hypothesis (natural-valued counts) holds at the
example tables of the spec, and the formula is instantiated there. -/
theorem rising_change_rate_formula_witness :
    countColNat exPrev exMap = true ∧
    (∀ e ∈ risingCombined exCur exPrev exMap,
      e.change_rate
        = round1 ((e.current - e.previous) / max e.previous 1 * 100)) :=
  ⟨by with_unfolding_all decide,
   rising_change_rate_formula.1 exCur exPrev exMap
     (by with_unfolding_all decide)⟩

/-- C2: `get_rising_keywords` returns an empty result when the keyword role
is unassigned; otherwise it returns exactly the outer-joined entries that
pass the filter (`risingPassing`: rounded change rate ≥ 100 and current
count ≥ the 0.3-quantile of all joined current counts), sorted descending
by change rate and truncated to at most `n` entries: its length is
`min n (#passing)`, every returned entry passes the filter, and when no
truncation happens it is a permutation of the passing entries. -/
theorem rising_keywords_spec (t p : Table) (cm : ColMap) (n : ℕ) :
    (cm.keyword = none → get_rising_keywords t p cm n = []) ∧
    (get_rising_keywords t p cm n).length
      = min n (risingPassing t p cm).length ∧
    (get_rising_keywords t p cm n).Pairwise
      (fun a b => b.change_rate ≤ a.change_rate) ∧
    (∀ e ∈ get_rising_keywords t p cm n, e ∈ risingPassing t p cm) ∧
    ((risingPassing t p cm).length ≤ n →
      (get_rising_keywords t p cm n).Perm (risingPassing t p cm)) := by
  refine ⟨?_, ?_, ?_, ?_, ?_⟩
  · intro h
    have hcomb : risingCombined t p cm = [] := by
      simp [risingCombined, h, isAssigned]
    simp [get_rising_keywords, risingPassing, hcomb, pdSortDesc, sortByAsc]
  · show ((pdSortDesc (fun e => e.change_rate)
      (risingPassing t p cm)).take n).length = _
    rw [List.length_take, (pdSortDesc_perm _ _).length_eq]
  · exact take_pdSortDesc_pairwise _ _ n
  · intro e he
    exact (pdSortDesc_perm _ _).mem_iff.mp (List.take_subset n _ he)
  · intro hle
    show ((pdSortDesc (fun e => e.change_rate)
      (risingPassing t p cm)).take n).Perm _
    rw [List.take_of_length_le
      (by rw [(pdSortDesc_perm _ _).length_eq]; exact hle)]
    exact pdSortDesc_perm _ _

/-- Witness for C2 at the example of the spec: only A (rate 300.0, current 20 ≥
quantile 9.5) passes; B (current 5) is filtered out. -/
theorem rising_keywords_spec_witness :
    get_rising_keywords exCur exPrev exMap 10 = [⟨"A", 20, 5, 300⟩] ∧
    (risingPassing exCur exPrev exMap).length ≤ 10 ∧
    (get_rising_keywords exCur exPrev exMap 10).Perm
      (risingPassing exCur exPrev exMap) :=
  ⟨by with_unfolding_all decide, by with_unfolding_all decide,
   (rising_keywords_spec exCur exPrev exMap 10).2.2.2.2
     (by with_unfolding_all decide)⟩

/-- C3: `get_top_keywords` returns an empty result (not an error) when the
keyword role is unassigned; with both keyword and count roles assigned each
returned entry carries the sum of the count column over the rows bearing
that keyword; with only the keyword role assigned each returned entry
carries the occurrence frequency of that keyword.  The scenario of the
spec:
columns [상품명, 검색량] map to keyword/count and rows
[(노트북, 50), (마우스, 30), (노트북, 10)] give
`topKeywords(2) = [(노트북, 60), (마우스, 30)]`. -/
theorem top_keywords_modes :
    (∀ (t : Table) (cm : ColMap) (n : ℕ),
      (cm.keyword = none → get_top_keywords t cm n = []) ∧
      (isAssigned cm.keyword = true → isAssigned cm.count = true →
        ∀ pr ∈ get_top_keywords t cm n,
          pr.2 = (((kwPairs t (cm.keyword.getD "") (cm.count.getD "")).filter
            fun q => q.1 = pr.1).map Prod.snd).sum) ∧
      (isAssigned cm.keyword = true → isAssigned cm.count = false →
        ∀ pr ∈ get_top_keywords t cm n,
          pr.2 = ((strCol t (cm.keyword.getD "")).count pr.1 : ℚ)))
    ∧ detect_columns ["상품명", "검색량"]
        = { keyword := some "상품명", count := some "검색량", category := none,
            date := none, price := none, product_name := none }
    ∧ get_top_keywords scenarioTable (detect_columns ["상품명", "검색량"]) 2
        = [("노트북", 60), ("마우스", 30)] := by
  refine ⟨?_, by decide, by with_unfolding_all decide⟩
  intro t cm n
  refine ⟨?_, ?_, ?_⟩
  · intro h
    simp [get_top_keywords, h, isAssigned]
  · intro hk hc pr hpr
    have hrw : get_top_keywords t cm n
        = (pdSortDesc (fun pr => pr.2) (groupbySum
            (kwPairs t (cm.keyword.getD "") (cm.count.getD "")))).take n := by
      unfold get_top_keywords
      rw [hk, hc]
      rfl
    rw [hrw] at hpr
    exact groupbySum_mem_snd _ pr
      ((pdSortDesc_perm _ _).mem_iff.mp (List.take_subset n _ hpr))
  · intro hk hc pr hpr
    have hrw : get_top_keywords t cm n
        = (valueCounts (strCol t (cm.keyword.getD ""))).take n := by
      unfold get_top_keywords
      rw [hk, hc]
      rfl
    rw [hrw] at hpr
    have h1 : pr ∈ valueCounts (strCol t (cm.keyword.getD "")) :=
      List.take_subset n _ hpr
    unfold valueCounts at h1
    exact rawCounts_mem _ pr ((pdSortDesc_perm _ _).mem_iff.mp h1)

/-- Witness for C3: the two role-assignment hypotheses hold on the
detected column map of the scenario, and the sum characterization is
instantiated there. -/
theorem top_keywords_modes_witness :
    isAssigned (detect_columns ["상품명", "검색량"]).keyword = true ∧
    isAssigned (detect_columns ["상품명", "검색량"]).count = true ∧
    (∀ pr ∈ get_top_keywords scenarioTable
        (detect_columns ["상품명", "검색량"]) 2,
      pr.2 = (((kwPairs scenarioTable
          ((detect_columns ["상품명", "검색량"]).keyword.getD "")
          ((detect_columns ["상품명", "검색량"]).count.getD "")).filter
        fun q => q.1 = pr.1).map Prod.snd).sum) :=
  ⟨by decide, by decide,
   (top_keywords_modes.1 scenarioTable
     (detect_columns ["상품명", "검색량"]) 2).2.1 (by decide) (by decide)⟩

/-- C4 (amended): `get_top_keywords(n)` returns at most `n` entries sorted
by count in descending order.  The claimed first-encountered tie order does
not hold (see the counterexample): the aggregation first reorders the keys
(groupby sorts them; value_counts keys stay in first-seen order) and the
descending sort then reverses a stable ascending sort, so equal counts come
out in reverse of the aggregated key order. -/
theorem top_keywords_sorted_bounded (t : Table) (cm : ColMap) (n : ℕ) :
    (get_top_keywords t cm n).length ≤ n ∧
    (get_top_keywords t cm n).Pairwise (fun a b => b.2 ≤ a.2) := by
  unfold get_top_keywords
  split
  · split
    · constructor
      · exact List.length_take_le n _
      · unfold valueCounts
        exact take_pdSortDesc_pairwise _ _ n
    · simp
  · constructor
    · exact List.length_take_le n _
    · exact take_pdSortDesc_pairwise _ _ n

/-- C4 counterexample: keywords first encountered in the order a, b with
equal summed counts come out as [(b, 5), (a, 5)], not in first-encountered
order [(a, 5), (b, 5)]. -/
theorem top_keywords_tie_counterexample :
    get_top_keywords tieTable (detect_columns tieTable.cols) 2
        = [("b", 5), ("a", 5)] ∧
    get_top_keywords tieTable (detect_columns tieTable.cols) 2
        ≠ [("a", 5), ("b", 5)] := by
  with_unfolding_all decide

/-- C5 (amended): for a `.csv` path the loader tries utf-8, cp949, euc-kr in
this order and keeps the first successful parse; when every candidate fails
the load still fails fatally, but with an untyped null-table crash (the
`AttributeError` of accessing `.columns` on the never-assigned table,
`errNoneColumns`), not with a dedicated UnsupportedEncoding error — the
source raises none. -/
theorem csv_encoding_attempts (path : String) (rx : Table)
    (rc : String → Option Table) (hs : suffixLower path = ".csv") :
    (∀ t, rc "utf-8" = some t → load path rx rc = .ok (normalizeCols t)) ∧
    (rc "utf-8" = none → ∀ t, rc "cp949" = some t →
      load path rx rc = .ok (normalizeCols t)) ∧
    (rc "utf-8" = none → rc "cp949" = none → ∀ t, rc "euc-kr" = some t →
      load path rx rc = .ok (normalizeCols t)) ∧
    (rc "utf-8" = none → rc "cp949" = none → rc "euc-kr" = none →
      load path rx rc = .errNoneColumns) := by
  have hload : load path rx rc
      = match tryEncodings rc encodingCandidates with
        | some t => .ok (normalizeCols t)
        | none => .errNoneColumns := by
    unfold load
    rw [hs, if_neg (by decide), if_pos rfl]
  refine ⟨?_, ?_, ?_, ?_⟩
  · intro t ht
    rw [hload]
    simp [tryEncodings, encodingCandidates, ht]
  · intro h1 t ht
    rw [hload]
    simp [tryEncodings, encodingCandidates, h1, ht]
  · intro h1 h2 t ht
    rw [hload]
    simp [tryEncodings, encodingCandidates, h1, h2, ht]
  · intro h1 h2 h3
    rw [hload]
    simp [tryEncodings, encodingCandidates, h1, h2, h3]

/-- Witness for C5: a `.csv` path whose every encoding attempt fails ends in
the null-table crash. -/
theorem csv_encoding_attempts_witness :
    suffixLower "a.csv" = ".csv" ∧
    load "a.csv" ⟨[], []⟩ (fun _ => none) = .errNoneColumns :=
  ⟨by decide,
   (csv_encoding_attempts "a.csv" ⟨[], []⟩ (fun _ => none) (by decide)).2.2.2
     rfl rfl rfl⟩

/-- C5 counterexample: when no candidate encoding parses the file, the load
does not produce any dedicated UnsupportedEncoding error — the table stays
unset and the subsequent column access crashes (`errNoneColumns`); no such
raise exists in the source. -/
theorem csv_encoding_counterexample :
    load "검색로그.csv" ⟨[], []⟩ (fun _ => none) = LoadResult.errNoneColumns := by
  decide

/-- C6: when the external text generator fails on a summary, generation
falls back to the template text for that same summary, the run is not
aborted, and the HTML/spreadsheet/JSON outputs are exactly those produced
with the template text (identical to a template-mode run). -/
theorem ai_failure_uses_template (t : Table) (cm : ColMap) (today e : String)
    (api : Summary → Except String String)
    (h : api (generate_summary t cm today) = Except.error e) :
    generate_with_ai api (generate_summary t cm today)
        = generate_template (generate_summary t cm today) ∧
    runPipeline t cm today true api = runPipeline t cm today false api ∧
    (runPipeline t cm today true api).html
        = generate_html (generate_summary t cm today)
            (generate_template (generate_summary t cm today)) ∧
    (runPipeline t cm today true api).excel
        = save_excel (generate_summary t cm today) ∧
    (runPipeline t cm today true api).json = generate_summary t cm today := by
  have h1 : generate_with_ai api (generate_summary t cm today)
      = generate_template (generate_summary t cm today) := by
    unfold generate_with_ai
    rw [h]
  have h2 : generate_trend_text true api (generate_summary t cm today)
      = generate_template (generate_summary t cm today) := by
    unfold generate_trend_text
    simpa using h1
  refine ⟨h1, ?_, ?_, rfl, rfl⟩
  · unfold runPipeline
    rw [h2]
    rfl
  · show generate_html (generate_summary t cm today)
      (generate_trend_text true api (generate_summary t cm today)) = _
    rw [h2]

/-- Witness for C6: a concrete always-failing generator on a concrete
table; the fallback text equals the template text. -/
theorem ai_failure_uses_template_witness :
    (fun _ : Summary => (Except.error "timeout" : Except String String))
        (generate_summary scenarioTable (detect_columns ["상품명", "검색량"])
          "2026-01-01") = Except.error "timeout" ∧
    generate_with_ai (fun _ => Except.error "timeout")
        (generate_summary scenarioTable (detect_columns ["상품명", "검색량"])
          "2026-01-01")
      = generate_template
          (generate_summary scenarioTable (detect_columns ["상품명", "검색량"])
            "2026-01-01") :=
  ⟨rfl,
   (ai_failure_uses_template scenarioTable (detect_columns ["상품명", "검색량"])
     "2026-01-01" "timeout" (fun _ => Except.error "timeout") rfl).1⟩

/-- C7: an empty table (0 rows) summarizes to total_records = 0, empty
top-keyword and category lists and no top-1 fields, and the template
narrative on that summary is still non-empty boilerplate text. -/
theorem empty_table_summary (t : Table) (cm : ColMap) (today : String)
    (h : t.rows = []) :
    (generate_summary t cm today).total_records = 0 ∧
    (generate_summary t cm today).top_keywords = [] ∧
    (generate_summary t cm today).category_stats = [] ∧
    (generate_summary t cm today).top_1 = none ∧
    generate_template (generate_summary t cm today) ≠ "" := by
  rw [generate_summary_nil t cm today h]
  refine ⟨rfl, rfl, rfl, rfl, ?_⟩
  have heq : generate_template ⟨0, [], [], today, none⟩
      = generate_template ⟨0, [], [], "", none⟩ := rfl
  rw [heq]
  with_unfolding_all decide

/-- Witness for C7 on a concrete empty table. -/
theorem empty_table_summary_witness :
    (⟨["상품명"], []⟩ : Table).rows = [] ∧
    (generate_summary ⟨["상품명"], []⟩ (detect_columns ["상품명"])
      "2026-01-01").total_records = 0 ∧
    generate_template (generate_summary ⟨["상품명"], []⟩
      (detect_columns ["상품명"]) "2026-01-01") ≠ "" :=
  ⟨rfl,
   (empty_table_summary ⟨["상품명"], []⟩ (detect_columns ["상품명"])
     "2026-01-01" rfl).1,
   (empty_table_summary ⟨["상품명"], []⟩ (detect_columns ["상품명"])
     "2026-01-01" rfl).2.2.2.2⟩

/-- C8 (amended): provided the category role is assigned, the counts
returned by `get_category_stats` sum to the total of the count column when the
count role is assigned, and to the row count under the frequency fallback.
Without a category role the result is empty (sum 0), so the unconditional
form of the claim fails — see the counterexample. -/
theorem category_stats_total (t : Table) (cm : ColMap)
    (hcat : isAssigned cm.category = true) :
    (isAssigned cm.count = true →
      ((get_category_stats t cm).map Prod.snd).sum
        = (numCol t (cm.count.getD "")).sum) ∧
    (isAssigned cm.count = false →
      ((get_category_stats t cm).map Prod.snd).sum
        = (t.rows.length : ℚ)) := by
  constructor
  · intro hcnt
    have hg : get_category_stats t cm
        = pdSortDesc (fun pr => pr.2) (groupbySum
            (kwPairs t (cm.category.getD "") (cm.count.getD ""))) := by
      unfold get_category_stats
      rw [hcat, hcnt]
      rfl
    rw [hg, ((pdSortDesc_perm _ _).map Prod.snd).sum_eq,
      groupbySum_snd_sum, kwPairs_snd]
  · intro hcnt
    have hg : get_category_stats t cm
        = pdSortDesc (fun pr => pr.2)
            (valueCounts (strCol t (cm.category.getD ""))) := by
      unfold get_category_stats
      rw [hcat, hcnt]
      rfl
    rw [hg, ((pdSortDesc_perm _ _).map Prod.snd).sum_eq]
    unfold valueCounts
    rw [((pdSortDesc_perm _ _).map Prod.snd).sum_eq, rawCounts_snd_sum,
      strCol_length]

/-- Witness for C8 on a table with category and count columns:
가전 ↦ 3 + 1, 패션 ↦ 2, total 6 = the sum of the count column. -/
theorem category_stats_total_witness :
    isAssigned (detect_columns ["카테고리", "수량"]).category = true ∧
    isAssigned (detect_columns ["카테고리", "수량"]).count = true ∧
    ((get_category_stats catTable (detect_columns ["카테고리", "수량"])).map
      Prod.snd).sum
      = (numCol catTable
          ((detect_columns ["카테고리", "수량"]).count.getD "")).sum :=
  ⟨by decide, by decide,
   (category_stats_total catTable (detect_columns ["카테고리", "수량"])
     (by decide)).1 (by decide)⟩

/-- C8 counterexample: with a count column but no category column the
category stats are empty, so their total (0) matches neither the sum of
the count column (5) nor the row count (1) — the universal form of the
claim fails without the category-role precondition. -/
theorem category_stats_sum_counterexample :
    isAssigned (detect_columns ["검색량"]).count = true ∧
    ((get_category_stats countOnlyTable (detect_columns ["검색량"])).map
      Prod.snd).sum
      ≠ (numCol countOnlyTable
          ((detect_columns ["검색량"]).count.getD "")).sum ∧
    ((get_category_stats countOnlyTable (detect_columns ["검색량"])).map
      Prod.snd).sum ≠ (countOnlyTable.rows.length : ℚ) := by
  with_unfolding_all decide

/-- C9 (amended): a path whose extension is neither .xlsx/.xls nor .csv
fails with the UnsupportedFormat `ValueError` and the run aborts with no
outputs produced; the error message reports the reason and the offending
extension, but not the full path (see the counterexample). -/
theorem unsupported_format_error (path : String) (rx : Table)
    (rc : String → Option Table) (today : String) (useAI : Bool)
    (api : Summary → Except String String)
    (h1 : suffixLower path ≠ ".xlsx") (h2 : suffixLower path ≠ ".xls")
    (h3 : suffixLower path ≠ ".csv") :
    load path rx rc
        = .errUnsupportedFormat (unsupportedMsg (suffixLower path)) ∧
    runMain path rx rc today useAI api = none := by
  have hload : load path rx rc
      = .errUnsupportedFormat (unsupportedMsg (suffixLower path)) := by
    unfold load
    rw [if_neg ?_, if_neg h3]
    intro hor
    rcases hor with hx | hx
    · exact h1 hx
    · exact h2 hx
  refine ⟨hload, ?_⟩
  unfold runMain
  rw [hload]

/-- Witness for C9 at a concrete `.txt` path. -/
theorem unsupported_format_error_witness :
    suffixLower "data.txt" ≠ ".xlsx" ∧ suffixLower "data.txt" ≠ ".xls" ∧
    suffixLower "data.txt" ≠ ".csv" ∧
    load "data.txt" ⟨[], []⟩ (fun _ => none)
        = .errUnsupportedFormat (unsupportedMsg (suffixLower "data.txt")) ∧
    runMain "data.txt" ⟨[], []⟩ (fun _ => none) "2026-01-01" false
        (fun _ => Except.error "") = none :=
  ⟨by decide, by decide, by decide,
   (unsupported_format_error "data.txt" ⟨[], []⟩ (fun _ => none) "2026-01-01"
     false (fun _ => Except.error "") (by decide) (by decide) (by decide)).1,
   (unsupported_format_error "data.txt" ⟨[], []⟩ (fun _ => none) "2026-01-01"
     false (fun _ => Except.error "") (by decide) (by decide) (by decide)).2⟩

/-- C9 counterexample: the raised message contains the extension and
reason but not the offending path ("data.txt" is not a substring of it),
refuting "reported with the offending path". -/
theorem unsupported_format_counterexample :
    load "data.txt" ⟨[], []⟩ (fun _ => none)
        = .errUnsupportedFormat "지원하지 않는 파일 형식: .txt" ∧
    hasSub "지원하지 않는 파일 형식: .txt" "data.txt" = false := by
  decide

/-- C10: `detect_columns` returns exactly the six roles of `ColMap`
(keyword, count, category, date, price, product_name), each non-product
role resolved to the first column, in table order, whose name contains one
of the synonyms of that role (`FirstMatchSpec`), hence at most one column per
role; `product_name` has no detection loop and is always `none`. -/
theorem detect_columns_spec (cols : List String) :
    (detect_columns cols).product_name = none ∧
    FirstMatchSpec keyword_candidates cols (detect_columns cols).keyword ∧
    FirstMatchSpec count_candidates cols (detect_columns cols).count ∧
    FirstMatchSpec category_candidates cols (detect_columns cols).category ∧
    FirstMatchSpec date_candidates cols (detect_columns cols).date ∧
    FirstMatchSpec price_candidates cols (detect_columns cols).price :=
  ⟨rfl, firstMatch_spec _ cols, firstMatch_spec _ cols, firstMatch_spec _ cols,
   firstMatch_spec _ cols, firstMatch_spec _ cols⟩

/-- Witness for C10 at the columns of the scenario. -/
theorem detect_columns_spec_witness :
    (detect_columns ["상품명", "검색량"]).product_name = none ∧
    FirstMatchSpec keyword_candidates ["상품명", "검색량"]
      (detect_columns ["상품명", "검색량"]).keyword :=
  ⟨(detect_columns_spec ["상품명", "검색량"]).1,
   (detect_columns_spec ["상품명", "검색량"]).2.1⟩

/-- Witness for the amended C4 theorem at a concrete input. -/
theorem top_keywords_sorted_bounded_witness :
    (get_top_keywords scenarioTable
      (detect_columns ["상품명", "검색량"]) 1).length ≤ 1 ∧
    (get_top_keywords scenarioTable
      (detect_columns ["상품명", "검색량"]) 1).Pairwise
        (fun a b => b.2 ≤ a.2) :=
  top_keywords_sorted_bounded scenarioTable
    (detect_columns ["상품명", "검색량"]) 1
